import Mathlib

/-!
Shallow embedding of the segregated-free-list dynamic memory allocator in
`src/mm.c` (Brian Klammer), together with proofs about the claims of its
specification.

Modelling conventions:
* The heap is a byte-addressed memory `mem : Mem` (a journal of byte writes;
  each cell holds one byte, looked up by `readB`).  All metadata accesses in
  `mm.c` are 64-bit little-endian word accesses through `uint64_t*`; they
  are modelled by `load64` / `store64`.
* C pointers are byte addresses (`Nat`).  `uint64_t*` pointer arithmetic
  `p + k` in the source advances by `8 * k` bytes here.
* `size_t` arithmetic wraps at `2 ^ 64`; an explicit `% 2 ^ 64` is written at
  the spots where the C computation can actually wrap.
* Bit-mask operations on a 64-bit word `w` are written arithmetically
  (for every `w < 2 ^ 64` these coincide with the C masks):
  `w & 0x1 = w % 2`, `w | 0x1 = w / 2 * 2 + 1`, `w & ~0x1 = w / 2 * 2`,
  `(w / 2) % 2` is bit 1, `w | 0x2 = w / 4 * 4 + 2 + w % 2`,
  `w & ~0x2 = w / 4 * 4 + w % 2`, `w & ~0x7 = w / 8 * 8`.
* The external memory layer (`memlib`: `mm_sbrk`, `mm_heap_lo`, `mm_heap_hi`)
  and the byte primitives `mm_memset` / `mm_memcpy` are not part of `src/`;
  they are modelled from the specification (sections 1 and 6).
-/

namespace MM

/-- Byte-addressed memory, represented as a journal of writes over an
all-zero backing store: `set1 a b m` writes byte `b` at address `a`,
`fill p v n m` writes byte `v` at the `n` addresses starting at `p`
(the byte-fill primitive), and `copy d s n m` writes at `d + i` (for
`i < n`) the byte that `m` holds at `s + i` (the byte-copy primitive).
The journal is only a representation; its meaning is the lookup
function `readB`. -/
inductive Mem where
  | base : Mem
  | set1 : Nat → Nat → Mem → Mem
  | fill : Nat → Nat → Nat → Mem → Mem
  | copy : Nat → Nat → Nat → Mem → Mem

/-- The byte that memory `m` holds at address `x` (later writes shadow
earlier ones). -/
def readB : Mem → Nat → Nat
  | .base, _ => 0
  | .set1 a b m, x => if x = a then b else readB m x
  | .fill p v n m, x => if p ≤ x ∧ x < p + n then v else readB m x
  | .copy d s n m, x => if d ≤ x ∧ x < d + n then readB m (s + (x - d)) else readB m x

/-- 64-bit little-endian load of the word at byte address `a`. -/
def load64 (m : Mem) (a : Nat) : Nat :=
  readB m a + 256 * readB m (a + 1) + 65536 * readB m (a + 2) +
    16777216 * readB m (a + 3) + 4294967296 * readB m (a + 4) +
    1099511627776 * readB m (a + 5) + 281474976710656 * readB m (a + 6) +
    72057594037927936 * readB m (a + 7)

/-- 64-bit little-endian store of value `v` at byte address `a`. -/
def store64 (m : Mem) (a v : Nat) : Mem :=
  .set1 a (v % 256) (.set1 (a + 1) (v / 256 % 256)
    (.set1 (a + 2) (v / 65536 % 256) (.set1 (a + 3) (v / 16777216 % 256)
    (.set1 (a + 4) (v / 4294967296 % 256) (.set1 (a + 5) (v / 1099511627776 % 256)
    (.set1 (a + 6) (v / 281474976710656 % 256)
    (.set1 (a + 7) (v / 72057594037927936 % 256) m)))))))

/-- The segregated free-list array, represented as an update journal over
the all-null initial array; its meaning is the lookup function `segRead`. -/
def SegList : Type := List (Nat × Nat)

/-- The head of free list `j` (0 when never written, i.e. null). -/
def segRead : SegList → Nat → Nat
  | [], _ => 0
  | (i, v) :: rest, j => if j = i then v else segRead rest j

/-- Point update of the segregated free-list array. -/
def setSeg (f : SegList) (i v : Nat) : SegList := (i, v) :: f

/-- The global allocator state: the heap bytes, the amount of memory obtained
from the memory layer so far, the layer's capacity, the 15 segregated
free-list heads (`segFreeList` in `mm.c`, null = 0) and the last-block
pointer (`lastHeader` in `mm.c`). -/
structure Heap where
  mem : Mem
  heapSize : Nat
  heapLimit : Nat
  segFreeList : SegList
  lastHeader : Nat

/-- Modelled from the spec: the heap low address `L` reported by the memory
layer (`mm_heap_lo`).  A fixed positive 16-byte aligned address. -/
def heapLo : Nat := 65536

/-- Modelled from the spec: `mm_heap_hi`, the address of the last byte of the
heap (`lo + size - 1` in memlib). -/
def mm_heap_hi (st : Heap) : Nat := heapLo + st.heapSize - 1

/-- Modelled from the spec: the external heap extender (`mm_sbrk`).  Extends
the high end by `incr` bytes and returns the previous break, or the failure
sentinel `(void *)(-1) = 2 ^ 64 - 1` when the layer's capacity is exceeded. -/
def mm_sbrk (st : Heap) (incr : Nat) : Nat × Heap :=
  if st.heapSize + incr ≤ st.heapLimit then
    (heapLo + st.heapSize, { st with heapSize := st.heapSize + incr })
  else
    (2 ^ 64 - 1, st)

/-- Modelled from the spec: the external byte-fill primitive `mm_memset`
(used by the zero-allocate wrapper), filling `n` bytes from `p` with `v`. -/
def mm_memset (m : Mem) (p v n : Nat) : Mem := .fill p v n m

/-- Modelled from the spec: the external byte-copy primitive `mm_memcpy`
(used by the reallocate wrapper), copying `n` bytes from `src` to `dst`. -/
def mm_memcpy (m : Mem) (dst src n : Nat) : Mem := .copy dst src n m

def ALIGNMENT : Nat := 16
def BASE_ALIGNMENT : Nat := 24
def HEADER_SIZE : Nat := 8
def FOOTER_SIZE : Nat := 8
def FREE_OFFSET : Nat := 8

/-- `align` from `mm.c`: rounds up to the nearest multiple of `ALIGNMENT`.
The addition `x + ALIGNMENT - 1` is `size_t` arithmetic, hence the
`% 2 ^ 64`; the multiplication `16 * ((…) / 16)` never exceeds `2 ^ 64`. -/
def align (x : Nat) : Nat :=
  ALIGNMENT * (((x + ALIGNMENT - 1) % 2 ^ 64) / ALIGNMENT)

/-- `newAlign` from `mm.c`: rounds a request up to the nearest valid payload
size 24, 40, 56, …; the sum `align (x - 24) + 24` is `size_t` arithmetic. -/
def newAlign (x : Nat) : Nat :=
  if x ≤ BASE_ALIGNMENT then BASE_ALIGNMENT
  else (align (x - BASE_ALIGNMENT) + BASE_ALIGNMENT) % 2 ^ 64

/-- `aligned` from `mm.c`: whether a pointer value is 16-byte aligned. -/
def aligned (p : Nat) : Bool := align p == p

/-- `in_heap` from `mm.c`: `p <= mm_heap_hi() && p >= mm_heap_lo()`. -/
def in_heap (st : Heap) (p : Nat) : Bool :=
  decide (p ≤ mm_heap_hi st) && decide (heapLo ≤ p)

/-- `isFree` from `mm.c`: `!(*ptr & 0x1)`. -/
def isFree (m : Mem) (ptr : Nat) : Bool := load64 m ptr % 2 == 0

/-- `setFree` from `mm.c`: `*ptr &= ~0x1`. -/
def setFree (m : Mem) (ptr : Nat) : Mem :=
  store64 m ptr (load64 m ptr / 2 * 2)

/-- `setAlloc` from `mm.c`: `*ptr |= 0x1`. -/
def setAlloc (m : Mem) (ptr : Nat) : Mem :=
  store64 m ptr (load64 m ptr / 2 * 2 + 1)

/-- `isPrevFree` from `mm.c`: `!(*ptr & 0x2)`. -/
def isPrevFree (m : Mem) (ptr : Nat) : Bool := load64 m ptr / 2 % 2 == 0

/-- `setPrevFree` from `mm.c`: `*ptr &= ~0x2`. -/
def setPrevFree (m : Mem) (ptr : Nat) : Mem :=
  store64 m ptr (load64 m ptr / 4 * 4 + load64 m ptr % 2)

/-- `setPrevAlloc` from `mm.c`: `*ptr |= 0x2`. -/
def setPrevAlloc (m : Mem) (ptr : Nat) : Mem :=
  store64 m ptr (load64 m ptr / 4 * 4 + 2 + load64 m ptr % 2)

/-- `getBlockSize` from `mm.c`: `*ptr & ~0x7`. -/
def getBlockSize (m : Mem) (ptr : Nat) : Nat := load64 m ptr / 8 * 8

/-- `setBlockSize` from `mm.c`: `*ptr &= 0x7; *ptr |= size`.  Every call site
passes a multiple of 8, for which `(w & 0x7) | size = w % 8 + size`. -/
def setBlockSize (m : Mem) (ptr size : Nat) : Mem :=
  store64 m ptr (load64 m ptr % 8 + size)

/-- `get8ByteAlignment` from `mm.c`: number of `uint64_t` in `numBytes`. -/
def get8ByteAlignment (numBytes : Nat) : Nat := numBytes / 8

/-- `getFooter` from `mm.c`: `header + (HEADER_SIZE + size - FOOTER_SIZE)/8`
in `uint64_t*` arithmetic, i.e. that many words of 8 bytes. -/
def getFooter (header size : Nat) : Nat :=
  header + 8 * get8ByteAlignment (HEADER_SIZE + size - FOOTER_SIZE)

/-- `getPrevFooter` from `mm.c`: `header - FOOTER_SIZE/8` words. -/
def getPrevFooter (header : Nat) : Nat :=
  header - 8 * get8ByteAlignment FOOTER_SIZE

/-- `getNextHeader` from `mm.c`: `header + (HEADER_SIZE + size)/8` words. -/
def getNextHeader (header size : Nat) : Nat :=
  header + 8 * get8ByteAlignment (HEADER_SIZE + size)

/-- `getPrevHeader` from `mm.c`: `header - (HEADER_SIZE + size)/8` words. -/
def getPrevHeader (header size : Nat) : Nat :=
  header - 8 * get8ByteAlignment (HEADER_SIZE + size)

/-- `getPayload` from `mm.c`: `header + HEADER_SIZE/8` words. -/
def getPayload (header : Nat) : Nat :=
  header + 8 * get8ByteAlignment HEADER_SIZE

/-- `getNextFreeBlock` from `mm.c`: the forward link stored in the first
8 payload bytes of a free block. -/
def getNextFreeBlock (m : Mem) (ptr : Nat) : Nat := load64 m ptr

/-- `getPrevFreeBlock` from `mm.c`: the backward link stored in the second
8 payload bytes of a free block. -/
def getPrevFreeBlock (m : Mem) (ptr : Nat) : Nat :=
  load64 m (ptr + 8 * get8ByteAlignment FREE_OFFSET)

/-- `setNextFreeBlock` from `mm.c`. -/
def setNextFreeBlock (m : Mem) (ptr newptr : Nat) : Mem :=
  store64 m ptr newptr

/-- `setPrevFreeBlock` from `mm.c`. -/
def setPrevFreeBlock (m : Mem) (ptr newptr : Nat) : Mem :=
  store64 m (ptr + 8 * get8ByteAlignment FREE_OFFSET) newptr

/-- `removeFreeBlock` from `mm.c`: unlink payload pointer `ptr` from free
list `freeListIndex`. -/
def removeFreeBlock (st : Heap) (ptr freeListIndex : Nat) : Heap :=
  if ptr = segRead st.segFreeList freeListIndex then
    let nextptr := getNextFreeBlock st.mem ptr
    let mem1 := if nextptr ≠ 0 then setPrevFreeBlock st.mem nextptr 0 else st.mem
    { st with mem := mem1,
              segFreeList := setSeg st.segFreeList freeListIndex nextptr }
  else
    let nextptr := getNextFreeBlock st.mem ptr
    let prevptr := getPrevFreeBlock st.mem ptr
    let mem1 := if nextptr ≠ 0 then setPrevFreeBlock st.mem nextptr prevptr else st.mem
    let mem2 := setNextFreeBlock mem1 prevptr nextptr
    { st with mem := mem2 }

/-- `addFreeBlock` from `mm.c`: LIFO insertion of payload pointer `ptr` at
the head of free list `freeListIndex`. -/
def addFreeBlock (st : Heap) (ptr freeListIndex : Nat) : Heap :=
  if segRead st.segFreeList freeListIndex = 0 then
    let mem1 := setNextFreeBlock st.mem ptr 0
    let mem2 := setPrevFreeBlock mem1 ptr 0
    { st with mem := mem2,
              segFreeList := setSeg st.segFreeList freeListIndex ptr }
  else
    let mem1 := setNextFreeBlock st.mem ptr (segRead st.segFreeList freeListIndex)
    let mem2 := setPrevFreeBlock mem1 (segRead st.segFreeList freeListIndex) ptr
    let mem3 := setPrevFreeBlock mem2 ptr 0
    { st with mem := mem3,
              segFreeList := setSeg st.segFreeList freeListIndex ptr }

/-- `getFreeListIndex` from `mm.c`: map a (valid) payload size to its bin.
In C the first branch returns the `int` `sizeMul - 1`, which is `-1` for the
(invalid, never passed) size 8; with `Nat` subtraction that value is 0. -/
def getFreeListIndex (size : Nat) : Nat :=
  let sizeMul := (size - 8) / 16
  if sizeMul ≤ 4 then sizeMul - 1
  else if sizeMul ≤ 6 then 4
  else if sizeMul ≤ 8 then 5
  else if sizeMul ≤ 16 then 6
  else if sizeMul ≤ 32 then 7
  else if sizeMul ≤ 64 then 8
  else if sizeMul ≤ 128 then 9
  else if sizeMul ≤ 256 then 10
  else if sizeMul ≤ 512 then 11
  else if sizeMul ≤ 1024 then 12
  else if sizeMul ≤ 2048 then 13
  else 14

/-- `extendHeap` from `mm.c`: obtain `HEADER_SIZE + size` fresh bytes, stamp
the new header (allocated, size, prev-alloc bit derived from the old last
block), update `lastHeader`.  Returns the new header, or null (0) when the
extender fails. -/
def extendHeap (st : Heap) (size : Nat) : Nat × Heap :=
  let r := mm_sbrk st (HEADER_SIZE + size)
  let header := r.1
  let st1 := r.2
  if header = 2 ^ 64 - 1 then (0, st1)
  else
    let mem1 := store64 st1.mem header 0
    let mem2 := setAlloc mem1 header
    let mem3 := setBlockSize mem2 header size
    let mem4 :=
      if st1.lastHeader ≠ heapLo then
        if isFree mem3 st1.lastHeader then mem3 else setPrevAlloc mem3 header
      else setPrevAlloc mem3 header
    (header, { st1 with mem := mem4, lastHeader := header })

/-- `mm_init` from `mm.c`: place the 8-byte allocated prologue at the heap
low address and reset the free lists and the last-block pointer. -/
def mm_init (st : Heap) : Bool × Heap :=
  let r := mm_sbrk st HEADER_SIZE
  let heap_start := r.1
  let st1 := r.2
  if heap_start ≠ heapLo then (false, st1)
  else
    let mem1 := store64 st1.mem heap_start 0
    let mem2 := setAlloc mem1 heap_start
    (true, { st1 with mem := mem2, lastHeader := heapLo,
                      segFreeList := [] })

/-- The first-fit search loop of `malloc` (lines 429–498 of `mm.c`), made
structurally recursive on a fuel argument.  The loop is read-only; it returns
the victim payload pointer and the index of the list it was found in.  On a
well-formed heap the loop always terminates and the fuel passed by `malloc`
is sufficient; fuel exhaustion (only reachable from corrupted states, where
the C loop need not terminate) gives up with `none`. -/
def findFit (st : Heap) (n : Nat) : Nat → Nat → Nat → Option (Nat × Nat)
  | 0, _, _ => none
  | fuel + 1, index, ptr =>
    if ptr = 0 then
      if index = 14 then none
      else findFit st n fuel (index + 1) (segRead st.segFreeList (index + 1))
    else
      let header := ptr - 8 * get8ByteAlignment HEADER_SIZE
      let block_size := getBlockSize st.mem header
      if n ≤ block_size then some (ptr, index)
      else if index ≤ 3 then findFit st n fuel (index + 1) (segRead st.segFreeList (index + 1))
      else findFit st n fuel index (getNextFreeBlock st.mem ptr)

/-- The placement step of `malloc` (lines 447–484 of `mm.c`): given the
victim payload pointer `ptr` found in list `index` and the normalized
request `n`, split the block when the remainder is at least 32 bytes, fix
the neighbouring prev-alloc bit otherwise, mark the block allocated, and
unlink it from its free list. -/
def placeBlock (st : Heap) (ptr index n : Nat) : Heap :=
  let header := ptr - 8 * get8ByteAlignment HEADER_SIZE
  let block_size := getBlockSize st.mem header
  let st1 :=
    if 32 ≤ block_size - n then
      let split_block_size := block_size - n - HEADER_SIZE
      let mem1 := setBlockSize st.mem header n
      let nextHeader := getNextHeader header n
      let nextFooter := getFooter nextHeader split_block_size
      let mem2 := store64 mem1 nextHeader 0
      let mem3 := setBlockSize mem2 nextHeader split_block_size
      let mem4 := setPrevAlloc mem3 nextHeader
      let mem5 := store64 mem4 nextFooter 0
      let mem6 := setBlockSize mem5 nextFooter split_block_size
      let split_block_index := getFreeListIndex split_block_size
      let st' := addFreeBlock { st with mem := mem6 } (getPayload nextHeader)
        split_block_index
      if header = st.lastHeader then { st' with lastHeader := nextHeader } else st'
    else
      if header ≠ st.lastHeader then
        { st with mem := setPrevAlloc st.mem (getNextHeader header block_size) }
      else st
  let st2 := { st1 with mem := setAlloc st1.mem header }
  removeFreeBlock st2 ptr index

/-- `malloc` from `mm.c`.  Note the failure path: when no free block fits
and `extendHeap` fails (returns null), the returned value is
`getPayload 0 = 8`, not null. -/
def malloc (st : Heap) (size : Nat) : Nat × Heap :=
  if size = 0 then (0, st)
  else
    let new_block_size := newAlign size
    let index := getFreeListIndex new_block_size
    match findFit st new_block_size (16 + st.heapSize) index (segRead st.segFreeList index) with
    | some (ptr, foundIndex) => (ptr, placeBlock st ptr foundIndex new_block_size)
    | none =>
      let r := extendHeap st new_block_size
      (getPayload r.1, r.2)

/-- `free` from `mm.c`: no-op outside the heap; otherwise coalesce with the
free neighbours (four cases), maintain footers, prev-alloc bits, the
last-block pointer, and insert the resulting free block into its bin. -/
def free (st : Heap) (ptr : Nat) : Heap :=
  if in_heap st ptr then
    let header := ptr - HEADER_SIZE
    let block_size := getBlockSize st.mem header
    let footer := getFooter header block_size
    let index := getFreeListIndex block_size
    let nextHeader := getNextHeader header block_size
    let nextFree := (header != st.lastHeader) && isFree st.mem nextHeader
    let prevFree := (header - 8 * get8ByteAlignment HEADER_SIZE != heapLo) &&
      isPrevFree st.mem header
    let prevFooter := getPrevFooter header
    if nextFree && prevFree then
      -- Case 1: coalesce previous, current, and next blocks
      let prevHeader := getPrevHeader header (getBlockSize st.mem prevFooter)
      let nextFooter := getFooter nextHeader (getBlockSize st.mem nextHeader)
      let prevBlock_index := getFreeListIndex (getBlockSize st.mem prevHeader)
      let nextBlock_index := getFreeListIndex (getBlockSize st.mem nextHeader)
      let newSize := (getBlockSize st.mem prevHeader + getBlockSize st.mem header +
        getBlockSize st.mem nextHeader + 2 * HEADER_SIZE) % 2 ^ 64
      let newIndex := getFreeListIndex newSize
      let mem1 := setBlockSize st.mem prevHeader newSize
      let mem2 := setBlockSize mem1 nextFooter newSize
      let mem3 := setFree mem2 prevHeader
      let mem4 := setFree mem3 nextFooter
      let stA := removeFreeBlock { st with mem := mem4 }
        (prevHeader + 8 * get8ByteAlignment HEADER_SIZE) prevBlock_index
      let stB := removeFreeBlock stA
        (nextHeader + 8 * get8ByteAlignment HEADER_SIZE) nextBlock_index
      let newPtr := getPayload prevHeader
      let stC := if nextHeader = st.lastHeader then { stB with lastHeader := prevHeader }
        else stB
      addFreeBlock stC newPtr newIndex
    else if nextFree then
      -- Case 2: coalesce current and next blocks
      let nextFooter := getFooter nextHeader (getBlockSize st.mem nextHeader)
      let nextBlock_index := getFreeListIndex (getBlockSize st.mem nextHeader)
      let newSize := (getBlockSize st.mem header + getBlockSize st.mem nextFooter +
        HEADER_SIZE) % 2 ^ 64
      let newIndex := getFreeListIndex newSize
      let mem1 := setBlockSize st.mem header newSize
      let mem2 := setBlockSize mem1 nextFooter newSize
      let mem3 := setFree mem2 nextFooter
      let mem4 := setFree mem3 header
      let stA := removeFreeBlock { st with mem := mem4 }
        (nextHeader + 8 * get8ByteAlignment HEADER_SIZE) nextBlock_index
      let stB := if nextHeader = st.lastHeader then { stA with lastHeader := header }
        else stA
      addFreeBlock stB ptr newIndex
    else if prevFree then
      -- Case 3: coalesce current and previous blocks
      let prevHeader := getPrevHeader header (getBlockSize st.mem prevFooter)
      let prevBlock_index := getFreeListIndex (getBlockSize st.mem prevHeader)
      let newSize := (getBlockSize st.mem prevHeader + getBlockSize st.mem header +
        HEADER_SIZE) % 2 ^ 64
      let newIndex := getFreeListIndex newSize
      let mem1 := setBlockSize st.mem footer newSize
      let mem2 := setBlockSize mem1 prevHeader newSize
      let mem3 := setFree mem2 prevHeader
      let mem4 := setFree mem3 footer
      let stA := removeFreeBlock { st with mem := mem4 }
        (prevHeader + 8 * get8ByteAlignment HEADER_SIZE) prevBlock_index
      let newPtr := getPayload prevHeader
      let stB :=
        if header ≠ st.lastHeader then { stA with mem := setPrevFree stA.mem nextHeader }
        else { stA with lastHeader := prevHeader }
      addFreeBlock stB newPtr newIndex
    else
      -- Case 4: no coalescing
      let mem1 := setBlockSize st.mem footer block_size
      let mem2 := setFree mem1 footer
      let mem3 := setFree mem2 header
      let mem4 :=
        if header ≠ st.lastHeader then setPrevFree mem3 nextHeader else mem3
      addFreeBlock { st with mem := mem4 } ptr index
  else st

/-- `realloc` from `mm.c`. -/
def realloc (st : Heap) (oldptr size : Nat) : Nat × Heap :=
  if oldptr = 0 then malloc st size
  else if size = 0 then (0, free st oldptr)
  else
    let r := malloc st size
    let newptr := r.1
    let st1 := r.2
    if newptr = 0 then (0, st1)
    else
      let old_size := getBlockSize st1.mem (oldptr - 8 * get8ByteAlignment HEADER_SIZE)
      let mem2 :=
        if old_size < size then mm_memcpy st1.mem newptr oldptr old_size
        else mm_memcpy st1.mem newptr oldptr size
      let st2 := free { st1 with mem := mem2 } oldptr
      (newptr, st2)

/-- `calloc` from `mm.c`: `size *= nmemb` (`size_t` product, may wrap),
allocate, and zero the region through the returned pointer when non-null. -/
def calloc (st : Heap) (nmemb size : Nat) : Nat × Heap :=
  let sz := size * nmemb % 2 ^ 64
  let r := malloc st sz
  if r.1 ≠ 0 then (r.1, { r.2 with mem := mm_memset r.2.mem r.1 0 sz })
  else r

/-- `mm_checkheap` from `mm.c` in the shipped configuration: the `DEBUG`
macro is not defined, so the preprocessor removes the whole checking body
and the function is just `return true`. -/
def mm_checkheap (st : Heap) (lineno : Nat) : Bool := true

/-- A pristine memory-layer state with capacity `limit`: no bytes obtained
yet, zeroed backing store, empty free lists. -/
def heap0 (limit : Nat) : Heap :=
  { mem := .base, heapSize := 0, heapLimit := limit,
    segFreeList := [], lastHeader := 0 }

/-- A freshly initialized heap whose memory layer can only ever provide the
8 prologue bytes: the very first allocation already makes the extender fail. -/
def stTiny : Heap := (mm_init (heap0 8)).2

/-- A freshly initialized heap with an ample (1 MB) memory layer. -/
def mmInit1M : Heap := (mm_init (heap0 1000000)).2

/-- Scenario for forward coalescing: `a = allocate 40`. -/
def c5A : Nat × Heap := malloc mmInit1M 40

/-- Scenario for forward coalescing: `b = allocate 40`. -/
def c5B : Nat × Heap := malloc c5A.2 40

/-- Scenario for forward coalescing: `c = allocate 40`. -/
def c5C : Nat × Heap := malloc c5B.2 40

/-- Scenario for forward coalescing: `free a`. -/
def c5FreeA : Heap := free c5C.2 c5A.1

/-- Scenario for forward coalescing: `free b`. -/
def c5FreeB : Heap := free c5FreeA c5B.1

/-- A freshly initialized heap whose layer holds at most 48 bytes: one
24-byte-payload block fits, nothing more. -/
def stC2 : Heap := (mm_init (heap0 48)).2

/-- One successful allocation on `stC2`; the payload is 65552. -/
def c2P : Nat × Heap := malloc stC2 24

/-- A freshly initialized heap whose layer holds at most 60 bytes. -/
def stC4 : Heap := (mm_init (heap0 60)).2

/-- One successful allocation on `stC4`; the payload is 65552. -/
def c4A : Nat × Heap := malloc stC4 24

/-- `calloc 70000 1` on the exhausted heap `c4A.2`: the inner allocation
fails, `malloc` returns the non-null bogus pointer 8, and the zero-fill runs
through it. -/
def c4Z : Nat × Heap := calloc c4A.2 70000 1

end MM

/-!
Lemmas and claim theorems.
-/

namespace MM

set_option maxRecDepth 100000

/-- Two 8-byte word ranges based at `a` and `b` do not overlap. -/
def disj8 (a b : Nat) : Prop := a + 8 ≤ b ∨ b + 8 ≤ a

/-- Every cell of `m` holds a byte value. -/
def memBytes (m : Mem) : Prop := ∀ x, readB m x < 256

lemma memBytes_base : memBytes Mem.base := by
  intro x
  simp [readB]

lemma memBytes_store64 (m : Mem) (a v : Nat) (h : memBytes m) :
    memBytes (store64 m a v) := by
  intro x
  unfold store64
  simp only [readB]
  repeat' split
  all_goals first | omega | exact h x

lemma load64_lt (m : Mem) (a : Nat) (h : memBytes m) :
    load64 m a < 2 ^ 64 := by
  have h0 := h a
  have h1 := h (a + 1)
  have h2 := h (a + 2)
  have h3 := h (a + 3)
  have h4 := h (a + 4)
  have h5 := h (a + 5)
  have h6 := h (a + 6)
  have h7 := h (a + 7)
  unfold load64
  have hp : (2 : Nat) ^ 64 = 18446744073709551616 := by norm_num
  omega

lemma readB_store64_notin (m : Mem) (a v x : Nat) (h : x < a ∨ a + 8 ≤ x) :
    readB (store64 m a v) x = readB m x := by
  unfold store64
  simp only [readB]
  rw [if_neg (by omega : ¬ x = a), if_neg (by omega : ¬ x = a + 1),
    if_neg (by omega : ¬ x = a + 2), if_neg (by omega : ¬ x = a + 3),
    if_neg (by omega : ¬ x = a + 4), if_neg (by omega : ¬ x = a + 5),
    if_neg (by omega : ¬ x = a + 6), if_neg (by omega : ¬ x = a + 7)]

lemma load64_store64_disj (m : Mem) (a v b : Nat) (h : disj8 a b) :
    load64 (store64 m a v) b = load64 m b := by
  unfold disj8 at h
  unfold load64
  rw [readB_store64_notin m a v b (by omega),
    readB_store64_notin m a v (b + 1) (by omega),
    readB_store64_notin m a v (b + 2) (by omega),
    readB_store64_notin m a v (b + 3) (by omega),
    readB_store64_notin m a v (b + 4) (by omega),
    readB_store64_notin m a v (b + 5) (by omega),
    readB_store64_notin m a v (b + 6) (by omega),
    readB_store64_notin m a v (b + 7) (by omega)]

lemma load64_store64_same (m : Mem) (a v : Nat) :
    load64 (store64 m a v) a = v % 2 ^ 64 := by
  have h0 : readB (store64 m a v) a = v % 256 := by
    unfold store64
    simp only [readB]
    simp
  have h1 : readB (store64 m a v) (a + 1) = v / 256 % 256 := by
    unfold store64
    simp only [readB]
    rw [if_neg (by omega : ¬ a + 1 = a)]
    simp
  have h2 : readB (store64 m a v) (a + 2) = v / 65536 % 256 := by
    unfold store64
    simp only [readB]
    rw [if_neg (by omega : ¬ a + 2 = a),
      if_neg (by omega : ¬ a + 2 = a + 1)]
    simp
  have h3 : readB (store64 m a v) (a + 3) = v / 16777216 % 256 := by
    unfold store64
    simp only [readB]
    rw [if_neg (by omega : ¬ a + 3 = a),
      if_neg (by omega : ¬ a + 3 = a + 1),
      if_neg (by omega : ¬ a + 3 = a + 2)]
    simp
  have h4 : readB (store64 m a v) (a + 4) = v / 4294967296 % 256 := by
    unfold store64
    simp only [readB]
    rw [if_neg (by omega : ¬ a + 4 = a),
      if_neg (by omega : ¬ a + 4 = a + 1),
      if_neg (by omega : ¬ a + 4 = a + 2),
      if_neg (by omega : ¬ a + 4 = a + 3)]
    simp
  have h5 : readB (store64 m a v) (a + 5) = v / 1099511627776 % 256 := by
    unfold store64
    simp only [readB]
    rw [if_neg (by omega : ¬ a + 5 = a),
      if_neg (by omega : ¬ a + 5 = a + 1),
      if_neg (by omega : ¬ a + 5 = a + 2),
      if_neg (by omega : ¬ a + 5 = a + 3),
      if_neg (by omega : ¬ a + 5 = a + 4)]
    simp
  have h6 : readB (store64 m a v) (a + 6) = v / 281474976710656 % 256 := by
    unfold store64
    simp only [readB]
    rw [if_neg (by omega : ¬ a + 6 = a),
      if_neg (by omega : ¬ a + 6 = a + 1),
      if_neg (by omega : ¬ a + 6 = a + 2),
      if_neg (by omega : ¬ a + 6 = a + 3),
      if_neg (by omega : ¬ a + 6 = a + 4),
      if_neg (by omega : ¬ a + 6 = a + 5)]
    simp
  have h7 : readB (store64 m a v) (a + 7) = v / 72057594037927936 % 256 := by
    unfold store64
    simp only [readB]
    rw [if_neg (by omega : ¬ a + 7 = a),
      if_neg (by omega : ¬ a + 7 = a + 1),
      if_neg (by omega : ¬ a + 7 = a + 2),
      if_neg (by omega : ¬ a + 7 = a + 3),
      if_neg (by omega : ¬ a + 7 = a + 4),
      if_neg (by omega : ¬ a + 7 = a + 5),
      if_neg (by omega : ¬ a + 7 = a + 6)]
    simp
  unfold load64
  rw [h0, h1, h2, h3, h4, h5, h6, h7]
  have hp : (2 : Nat) ^ 64 = 18446744073709551616 := by norm_num
  omega

lemma segRead_setSeg (f : SegList) (i v j : Nat) :
    segRead (setSeg f i v) j = if j = i then v else segRead f j := rfl

lemma heapIte_mem (c : Prop) [Decidable c] (s : Heap) (x : Nat) :
    (if c then { s with lastHeader := x } else s).mem = s.mem := by
  split <;> rfl

lemma heapIte_seg (c : Prop) [Decidable c] (s : Heap) (x : Nat) :
    (if c then { s with lastHeader := x } else s).segFreeList = s.segFreeList := by
  split <;> rfl

lemma addFreeBlock_mem_load (st : Heap) (p i t : Nat)
    (h1 : disj8 p t) (h2 : disj8 (p + 8) t)
    (h3 : segRead st.segFreeList i = 0 ∨ disj8 (segRead st.segFreeList i + 8) t) :
    load64 (addFreeBlock st p i).mem t = load64 st.mem t := by
  unfold addFreeBlock
  by_cases hh : segRead st.segFreeList i = 0
  · rw [if_pos hh]
    show load64 (store64 (store64 st.mem p 0) (p + 8) 0) t = _
    rw [load64_store64_disj _ _ _ _ h2, load64_store64_disj _ _ _ _ h1]
  · rw [if_neg hh]
    rcases h3 with h3 | h3
    · exact absurd h3 hh
    · show load64 (store64 (store64 (store64 st.mem p (segRead st.segFreeList i))
        (segRead st.segFreeList i + 8) p) (p + 8) 0) t = _
      rw [load64_store64_disj _ _ _ _ h2, load64_store64_disj _ _ _ _ h3,
        load64_store64_disj _ _ _ _ h1]

lemma addFreeBlock_prevlink_load (st : Heap) (p i : Nat)
    (h0 : segRead st.segFreeList i ≠ 0)
    (hd : disj8 (p + 8) (segRead st.segFreeList i + 8)) :
    load64 (addFreeBlock st p i).mem (segRead st.segFreeList i + 8) = p % 2 ^ 64 := by
  unfold addFreeBlock
  rw [if_neg h0]
  show load64 (store64 (store64 (store64 st.mem p (segRead st.segFreeList i))
    (segRead st.segFreeList i + 8) p) (p + 8) 0) (segRead st.segFreeList i + 8) = _
  rw [load64_store64_disj _ _ _ _ hd, load64_store64_same]

lemma addFreeBlock_seg_eq (st : Heap) (p i : Nat) :
    (addFreeBlock st p i).segFreeList = setSeg st.segFreeList i p := by
  unfold addFreeBlock
  split <;> rfl

lemma removeFreeBlock_mem_load (st : Heap) (p i t : Nat)
    (h1 : getNextFreeBlock st.mem p = 0 ∨ disj8 (getNextFreeBlock st.mem p + 8) t)
    (h2 : disj8 (getPrevFreeBlock st.mem p) t) :
    load64 (removeFreeBlock st p i).mem t = load64 st.mem t := by
  unfold removeFreeBlock
  by_cases hh : p = segRead st.segFreeList i
  · rw [if_pos hh]
    show load64 (if getNextFreeBlock st.mem p ≠ 0 then
      setPrevFreeBlock st.mem (getNextFreeBlock st.mem p) 0 else st.mem) t = _
    by_cases hn : getNextFreeBlock st.mem p = 0
    · rw [if_neg (not_not_intro hn)]
    · rw [if_pos hn]
      rcases h1 with h1 | h1
      · exact absurd h1 hn
      · show load64 (store64 st.mem (getNextFreeBlock st.mem p + 8) 0) t = _
        rw [load64_store64_disj _ _ _ _ h1]
  · rw [if_neg hh]
    show load64 (store64 (if getNextFreeBlock st.mem p ≠ 0 then
      store64 st.mem (getNextFreeBlock st.mem p + 8) (getPrevFreeBlock st.mem p)
      else st.mem) (getPrevFreeBlock st.mem p) (getNextFreeBlock st.mem p)) t = _
    rw [load64_store64_disj _ _ _ _ h2]
    by_cases hn : getNextFreeBlock st.mem p = 0
    · rw [if_neg (not_not_intro hn)]
    · rw [if_pos hn]
      rcases h1 with h1 | h1
      · exact absurd h1 hn
      · rw [load64_store64_disj _ _ _ _ h1]

lemma removeFreeBlock_seg_ne (st : Heap) (p i j : Nat) (h : j ≠ i) :
    segRead (removeFreeBlock st p i).segFreeList j = segRead st.segFreeList j := by
  unfold removeFreeBlock
  split
  · show segRead (setSeg st.segFreeList i (getNextFreeBlock st.mem p)) j = _
    rw [segRead_setSeg, if_neg h]
  · rfl

lemma removeFreeBlock_seg_eq_of_ne (st : Heap) (p i : Nat)
    (h : segRead st.segFreeList i ≠ p) :
    (removeFreeBlock st p i).segFreeList = st.segFreeList := by
  unfold removeFreeBlock
  rw [if_neg (fun he => h he.symm)]

lemma removeFreeBlock_mem_congr (s1 s2 : Heap) (p i : Nat)
    (hm : s1.mem = s2.mem) (hs : s1.segFreeList = s2.segFreeList) :
    (removeFreeBlock s1 p i).mem = (removeFreeBlock s2 p i).mem := by
  simp only [removeFreeBlock, hm, hs]
  split <;> rfl

lemma removeFreeBlock_seg_congr (s1 s2 : Heap) (p i : Nat)
    (hm : s1.mem = s2.mem) (hs : s1.segFreeList = s2.segFreeList) :
    (removeFreeBlock s1 p i).segFreeList = (removeFreeBlock s2 p i).segFreeList := by
  simp only [removeFreeBlock, hm, hs]
  split <;> rfl


/-- The memory written by the split branch of `placeBlock` before the common
tail (mark allocated, unlink): shrink the victim header at `ptr - 8` to `n`,
build the right-half header at `ptr + n` and its footer at `ptr - 8 + b`. -/
def splitChain (st : Heap) (ptr n b : Nat) : Mem :=
  setBlockSize (store64 (setPrevAlloc (setBlockSize (store64
    (setBlockSize st.mem (ptr - 8) n) (ptr + n) 0) (ptr + n) (b - n - 8))
    (ptr + n)) (ptr - 8 + b) 0) (ptr - 8 + b) (b - n - 8)

/-- The split branch state after inserting the right half into its bin. -/
def splitAdd (st : Heap) (ptr n b : Nat) : Heap :=
  addFreeBlock { st with mem := splitChain st ptr n b } (ptr + n + 8)
    (getFreeListIndex (b - n - 8))

/-- The split branch state after also marking the victim allocated. -/
def splitSt2 (st : Heap) (ptr n b : Nat) : Heap :=
  { splitAdd st ptr n b with
      mem := setAlloc (splitAdd st ptr n b).mem (ptr - 8) }

lemma splitChain_load_h (st : Heap) (ptr n b : Nat)
    (hptr : 16 ≤ ptr) (hn24 : 24 ≤ n) (hn8 : n % 8 = 0) (hb8 : b % 8 = 0)
    (hsp : 32 ≤ b - n) (hfit : n ≤ b)
    (hw : load64 st.mem (ptr - 8) < 2 ^ 64) (hbound : ptr + b + 16 < 2 ^ 64) :
    load64 (splitChain st ptr n b) (ptr - 8) = load64 st.mem (ptr - 8) % 8 + n := by
  have hp64 : (2 : Nat) ^ 64 = 18446744073709551616 := by norm_num
  rw [hp64] at hw hbound
  unfold splitChain setBlockSize setPrevAlloc
  rw [load64_store64_disj _ _ _ _ (by unfold disj8; omega),
    load64_store64_disj _ _ _ _ (by unfold disj8; omega),
    load64_store64_disj _ _ _ _ (by unfold disj8; omega),
    load64_store64_disj _ _ _ _ (by unfold disj8; omega),
    load64_store64_disj _ _ _ _ (by unfold disj8; omega),
    load64_store64_same, hp64]
  omega

lemma splitChain_load_hp (st : Heap) (ptr n b : Nat)
    (hptr : 16 ≤ ptr) (hn24 : 24 ≤ n) (hn8 : n % 8 = 0) (hb8 : b % 8 = 0)
    (hsp : 32 ≤ b - n) (hfit : n ≤ b)
    (hbound : ptr + b + 16 < 2 ^ 64) :
    load64 (splitChain st ptr n b) (ptr + n) = b - n - 8 + 2 := by
  have hp64 : (2 : Nat) ^ 64 = 18446744073709551616 := by norm_num
  rw [hp64] at hbound
  unfold splitChain setBlockSize setPrevAlloc
  rw [load64_store64_disj _ _ _ _ (by unfold disj8; omega),
    load64_store64_disj _ _ _ _ (by unfold disj8; omega),
    load64_store64_same, load64_store64_same, load64_store64_same, hp64]
  omega

lemma splitChain_load_f (st : Heap) (ptr n b : Nat)
    (hptr : 16 ≤ ptr) (hn24 : 24 ≤ n) (hn8 : n % 8 = 0) (hb8 : b % 8 = 0)
    (hsp : 32 ≤ b - n) (hfit : n ≤ b)
    (hbound : ptr + b + 16 < 2 ^ 64) :
    load64 (splitChain st ptr n b) (ptr - 8 + b) = b - n - 8 := by
  have hp64 : (2 : Nat) ^ 64 = 18446744073709551616 := by norm_num
  rw [hp64] at hbound
  unfold splitChain setBlockSize setPrevAlloc
  rw [load64_store64_same, load64_store64_same, hp64]
  omega

lemma splitChain_load_other (st : Heap) (ptr n b t : Nat)
    (hd1 : disj8 (ptr - 8) t) (hd2 : disj8 (ptr + n) t)
    (hd3 : disj8 (ptr - 8 + b) t) :
    load64 (splitChain st ptr n b) t = load64 st.mem t := by
  unfold splitChain setBlockSize setPrevAlloc
  rw [load64_store64_disj _ _ _ _ hd3, load64_store64_disj _ _ _ _ hd3,
    load64_store64_disj _ _ _ _ hd2, load64_store64_disj _ _ _ _ hd2,
    load64_store64_disj _ _ _ _ hd2, load64_store64_disj _ _ _ _ hd1]

lemma placeBlock_split_eq_mem (st : Heap) (ptr index n b : Nat)
    (hptr : 16 ≤ ptr) (hb : getBlockSize st.mem (ptr - 8) = b)
    (hn8 : n % 8 = 0) (hb8 : b % 8 = 0) (hsp : 32 ≤ b - n) (hfit : n ≤ b) :
    (placeBlock st ptr index n).mem =
      (removeFreeBlock (splitSt2 st ptr n b) ptr index).mem := by
  have e1 : getNextHeader (ptr - 8) n = ptr + n := by
    unfold getNextHeader get8ByteAlignment HEADER_SIZE
    omega
  have e2 : getFooter (ptr + n) (b - n - 8) = ptr - 8 + b := by
    unfold getFooter get8ByteAlignment HEADER_SIZE FOOTER_SIZE
    omega
  have e3 : getPayload (ptr + n) = ptr + n + 8 := by
    unfold getPayload get8ByteAlignment HEADER_SIZE
    omega
  simp only [placeBlock]
  norm_num [get8ByteAlignment, HEADER_SIZE]
  rw [hb, if_pos hsp, e1, e2, e3]
  apply removeFreeBlock_mem_congr
  · simp only [heapIte_mem]
    rfl
  · simp only [heapIte_seg]
    rfl

lemma placeBlock_split_eq_seg (st : Heap) (ptr index n b : Nat)
    (hptr : 16 ≤ ptr) (hb : getBlockSize st.mem (ptr - 8) = b)
    (hn8 : n % 8 = 0) (hb8 : b % 8 = 0) (hsp : 32 ≤ b - n) (hfit : n ≤ b) :
    (placeBlock st ptr index n).segFreeList =
      (removeFreeBlock (splitSt2 st ptr n b) ptr index).segFreeList := by
  have e1 : getNextHeader (ptr - 8) n = ptr + n := by
    unfold getNextHeader get8ByteAlignment HEADER_SIZE
    omega
  have e2 : getFooter (ptr + n) (b - n - 8) = ptr - 8 + b := by
    unfold getFooter get8ByteAlignment HEADER_SIZE FOOTER_SIZE
    omega
  have e3 : getPayload (ptr + n) = ptr + n + 8 := by
    unfold getPayload get8ByteAlignment HEADER_SIZE
    omega
  simp only [placeBlock]
  norm_num [get8ByteAlignment, HEADER_SIZE]
  rw [hb, if_pos hsp, e1, e2, e3]
  apply removeFreeBlock_seg_congr
  · simp only [heapIte_mem]
    rfl
  · simp only [heapIte_seg]
    rfl

lemma placeBlock_split (st : Heap) (ptr index n b : Nat)
    (hbytes : memBytes st.mem)
    (hptr : 16 ≤ ptr)
    (hb : getBlockSize st.mem (ptr - 8) = b)
    (hn24 : 24 ≤ n) (hn16 : n % 16 = 8)
    (hsp : 32 ≤ b - n) (hfit : n ≤ b)
    (hbound : ptr + b + 16 < 2 ^ 64)
    (hoh : segRead st.segFreeList (getFreeListIndex (b - n - 8)) = 0 ∨
      segRead st.segFreeList (getFreeListIndex (b - n - 8)) = ptr ∨
      (disj8 (segRead st.segFreeList (getFreeListIndex (b - n - 8)) + 8) (ptr - 8) ∧
       disj8 (segRead st.segFreeList (getFreeListIndex (b - n - 8)) + 8) (ptr + n) ∧
       disj8 (segRead st.segFreeList (getFreeListIndex (b - n - 8)) + 8) (ptr - 8 + b) ∧
       disj8 (segRead st.segFreeList (getFreeListIndex (b - n - 8)) + 8) ptr ∧
       disj8 (segRead st.segFreeList (getFreeListIndex (b - n - 8)) + 8) (ptr + 8)))
    (hnp : getNextFreeBlock st.mem ptr = 0 ∨
      (disj8 (getNextFreeBlock st.mem ptr + 8) (ptr - 8) ∧
       disj8 (getNextFreeBlock st.mem ptr + 8) (ptr + n) ∧
       disj8 (getNextFreeBlock st.mem ptr + 8) (ptr - 8 + b)))
    (hpv : getPrevFreeBlock st.mem ptr = 0 ∨
      (disj8 (getPrevFreeBlock st.mem ptr) (ptr - 8) ∧
       disj8 (getPrevFreeBlock st.mem ptr) (ptr + n) ∧
       disj8 (getPrevFreeBlock st.mem ptr) (ptr - 8 + b))) :
    getBlockSize (placeBlock st ptr index n).mem (ptr - 8) = n ∧
    isFree (placeBlock st ptr index n).mem (ptr + n) = true ∧
    isPrevFree (placeBlock st ptr index n).mem (ptr + n) = false ∧
    getBlockSize (placeBlock st ptr index n).mem (ptr + n) = b - n - 8 ∧
    getBlockSize (placeBlock st ptr index n).mem (ptr - 8 + b) = b - n - 8 ∧
    segRead (placeBlock st ptr index n).segFreeList (getFreeListIndex (b - n - 8)) =
      ptr + n + 8 := by
  have hp64 : (2 : Nat) ^ 64 = 18446744073709551616 := by norm_num
  have hn8 : n % 8 = 0 := by omega
  have hb8 : b % 8 = 0 := by
    rw [← hb]
    unfold getBlockSize
    omega
  have hw : load64 st.mem (ptr - 8) < 2 ^ 64 := load64_lt _ _ hbytes
  have hbound' : ptr + b + 16 < 18446744073709551616 := by omega
  have hw' : load64 st.mem (ptr - 8) < 18446744073709551616 := by omega
  have hKm := placeBlock_split_eq_mem st ptr index n b hptr hb hn8 hb8 hsp hfit
  have hKs := placeBlock_split_eq_seg st ptr index n b hptr hb hn8 hb8 hsp hfit
  have hohA : segRead st.segFreeList (getFreeListIndex (b - n - 8)) = 0 ∨
      disj8 (segRead st.segFreeList (getFreeListIndex (b - n - 8)) + 8) (ptr - 8) := by
    rcases hoh with h | h | h
    · exact Or.inl h
    · right
      rw [h]
      unfold disj8
      omega
    · exact Or.inr h.1
  have hohB : segRead st.segFreeList (getFreeListIndex (b - n - 8)) = 0 ∨
      disj8 (segRead st.segFreeList (getFreeListIndex (b - n - 8)) + 8) (ptr + n) := by
    rcases hoh with h | h | h
    · exact Or.inl h
    · right
      rw [h]
      unfold disj8
      omega
    · exact Or.inr h.2.1
  have hohC : segRead st.segFreeList (getFreeListIndex (b - n - 8)) = 0 ∨
      disj8 (segRead st.segFreeList (getFreeListIndex (b - n - 8)) + 8) (ptr - 8 + b) := by
    rcases hoh with h | h | h
    · exact Or.inl h
    · right
      rw [h]
      unfold disj8
      omega
    · exact Or.inr h.2.2.1
  have hohD : segRead st.segFreeList (getFreeListIndex (b - n - 8)) = 0 ∨
      disj8 (segRead st.segFreeList (getFreeListIndex (b - n - 8)) + 8) ptr := by
    rcases hoh with h | h | h
    · exact Or.inl h
    · right
      rw [h]
      unfold disj8
      omega
    · exact Or.inr h.2.2.2.1
  have hA_h : load64 (splitAdd st ptr n b).mem (ptr - 8) =
      load64 st.mem (ptr - 8) % 8 + n := by
    unfold splitAdd
    rw [addFreeBlock_mem_load { st with mem := splitChain st ptr n b } (ptr + n + 8)
      (getFreeListIndex (b - n - 8)) (ptr - 8) (by unfold disj8; omega)
      (by unfold disj8; omega) hohA]
    exact splitChain_load_h st ptr n b hptr hn24 hn8 hb8 hsp hfit hw hbound
  have hA_hp : load64 (splitAdd st ptr n b).mem (ptr + n) = b - n - 8 + 2 := by
    unfold splitAdd
    rw [addFreeBlock_mem_load { st with mem := splitChain st ptr n b } (ptr + n + 8)
      (getFreeListIndex (b - n - 8)) (ptr + n) (by unfold disj8; omega)
      (by unfold disj8; omega) hohB]
    exact splitChain_load_hp st ptr n b hptr hn24 hn8 hb8 hsp hfit hbound
  have hA_f : load64 (splitAdd st ptr n b).mem (ptr - 8 + b) = b - n - 8 := by
    unfold splitAdd
    rw [addFreeBlock_mem_load { st with mem := splitChain st ptr n b } (ptr + n + 8)
      (getFreeListIndex (b - n - 8)) (ptr - 8 + b) (by unfold disj8; omega)
      (by unfold disj8; omega) hohC]
    exact splitChain_load_f st ptr n b hptr hn24 hn8 hb8 hsp hfit hbound
  have hA_ptr : load64 (splitAdd st ptr n b).mem ptr = load64 st.mem ptr := by
    unfold splitAdd
    rw [addFreeBlock_mem_load { st with mem := splitChain st ptr n b } (ptr + n + 8)
      (getFreeListIndex (b - n - 8)) ptr (by unfold disj8; omega)
      (by unfold disj8; omega) hohD]
    exact splitChain_load_other st ptr n b ptr (by unfold disj8; omega)
      (by unfold disj8; omega) (by unfold disj8; omega)
  have hS2mem : (splitSt2 st ptr n b).mem =
      setAlloc (splitAdd st ptr n b).mem (ptr - 8) := rfl
  have hS_h : load64 (splitSt2 st ptr n b).mem (ptr - 8) =
      (load64 st.mem (ptr - 8) % 8 + n) / 2 * 2 + 1 := by
    rw [hS2mem]
    unfold setAlloc
    rw [load64_store64_same, hA_h, hp64, Nat.mod_eq_of_lt (by omega)]
  have hS_hp : load64 (splitSt2 st ptr n b).mem (ptr + n) = b - n - 8 + 2 := by
    rw [hS2mem]
    unfold setAlloc
    rw [load64_store64_disj _ _ _ _ (by unfold disj8; omega), hA_hp]
  have hS_f : load64 (splitSt2 st ptr n b).mem (ptr - 8 + b) = b - n - 8 := by
    rw [hS2mem]
    unfold setAlloc
    rw [load64_store64_disj _ _ _ _ (by unfold disj8; omega), hA_f]
  have hS_ptr : load64 (splitSt2 st ptr n b).mem ptr = load64 st.mem ptr := by
    rw [hS2mem]
    unfold setAlloc
    rw [load64_store64_disj _ _ _ _ (by unfold disj8; omega), hA_ptr]
  have hnp_rt : getNextFreeBlock (splitSt2 st ptr n b).mem ptr =
      load64 st.mem ptr := hS_ptr
  have hpvb : disj8 (getPrevFreeBlock (splitSt2 st ptr n b).mem ptr) (ptr - 8) ∧
      disj8 (getPrevFreeBlock (splitSt2 st ptr n b).mem ptr) (ptr + n) ∧
      disj8 (getPrevFreeBlock (splitSt2 st ptr n b).mem ptr) (ptr - 8 + b) := by
    have hstep : getPrevFreeBlock (splitSt2 st ptr n b).mem ptr =
        load64 (splitAdd st ptr n b).mem (ptr + 8) := by
      show load64 (splitSt2 st ptr n b).mem (ptr + 8) = _
      rw [hS2mem]
      unfold setAlloc
      rw [load64_store64_disj _ _ _ _ (by unfold disj8; omega)]
    by_cases hohp : segRead st.segFreeList (getFreeListIndex (b - n - 8)) = ptr
    · have hv : load64 (splitAdd st ptr n b).mem (ptr + 8) = ptr + n + 8 := by
        unfold splitAdd
        have hpl := addFreeBlock_prevlink_load { st with mem := splitChain st ptr n b }
          (ptr + n + 8) (getFreeListIndex (b - n - 8))
          (by rw [show segRead ({ st with mem := splitChain st ptr n b } : Heap).segFreeList
                (getFreeListIndex (b - n - 8)) = ptr from hohp]; omega)
          (by rw [show segRead ({ st with mem := splitChain st ptr n b } : Heap).segFreeList
                (getFreeListIndex (b - n - 8)) = ptr from hohp]; unfold disj8; omega)
        rw [show segRead ({ st with mem := splitChain st ptr n b } : Heap).segFreeList
          (getFreeListIndex (b - n - 8)) = ptr from hohp] at hpl
        rw [hpl, hp64, Nat.mod_eq_of_lt (by omega)]
      rw [hstep, hv]
      refine ⟨?_, ?_, ?_⟩ <;> (unfold disj8; omega)
    · have hohE : segRead st.segFreeList (getFreeListIndex (b - n - 8)) = 0 ∨
          disj8 (segRead st.segFreeList (getFreeListIndex (b - n - 8)) + 8) (ptr + 8) := by
        rcases hoh with h | h | h
        · exact Or.inl h
        · exact absurd h hohp
        · exact Or.inr h.2.2.2.2
      have hv : load64 (splitAdd st ptr n b).mem (ptr + 8) =
          getPrevFreeBlock st.mem ptr := by
        unfold splitAdd
        rw [addFreeBlock_mem_load { st with mem := splitChain st ptr n b } (ptr + n + 8)
          (getFreeListIndex (b - n - 8)) (ptr + 8) (by unfold disj8; omega)
          (by unfold disj8; omega) hohE]
        exact splitChain_load_other st ptr n b (ptr + 8) (by unfold disj8; omega)
          (by unfold disj8; omega) (by unfold disj8; omega)
      rw [hstep, hv]
      rcases hpv with h | h
      · rw [h]
        refine ⟨?_, ?_, ?_⟩ <;> (unfold disj8; omega)
      · exact ⟨h.1, h.2.1, h.2.2⟩
  have H1h : getNextFreeBlock (splitSt2 st ptr n b).mem ptr = 0 ∨
      disj8 (getNextFreeBlock (splitSt2 st ptr n b).mem ptr + 8) (ptr - 8) := by
    rw [hnp_rt]
    rcases hnp with h | h
    · exact Or.inl h
    · exact Or.inr h.1
  have H1hp : getNextFreeBlock (splitSt2 st ptr n b).mem ptr = 0 ∨
      disj8 (getNextFreeBlock (splitSt2 st ptr n b).mem ptr + 8) (ptr + n) := by
    rw [hnp_rt]
    rcases hnp with h | h
    · exact Or.inl h
    · exact Or.inr h.2.1
  have H1f : getNextFreeBlock (splitSt2 st ptr n b).mem ptr = 0 ∨
      disj8 (getNextFreeBlock (splitSt2 st ptr n b).mem ptr + 8) (ptr - 8 + b) := by
    rw [hnp_rt]
    rcases hnp with h | h
    · exact Or.inl h
    · exact Or.inr h.2.2
  have hrem_h := removeFreeBlock_mem_load (splitSt2 st ptr n b) ptr index
    (ptr - 8) H1h hpvb.1
  have hrem_hp := removeFreeBlock_mem_load (splitSt2 st ptr n b) ptr index
    (ptr + n) H1hp hpvb.2.1
  have hrem_f := removeFreeBlock_mem_load (splitSt2 st ptr n b) ptr index
    (ptr - 8 + b) H1f hpvb.2.2
  refine ⟨?_, ?_, ?_, ?_, ?_, ?_⟩
  · unfold getBlockSize
    rw [hKm, hrem_h, hS_h]
    omega
  · unfold isFree
    rw [hKm, hrem_hp, hS_hp]
    simp only [beq_iff_eq]
    omega
  · unfold isPrevFree
    rw [hKm, hrem_hp, hS_hp]
    simp only [beq_eq_false_iff_ne, Ne]
    omega
  · unfold getBlockSize
    rw [hKm, hrem_hp, hS_hp]
    omega
  · unfold getBlockSize
    rw [hKm, hrem_f, hS_f]
    omega
  · rw [hKs]
    have hsegS2 : segRead (splitSt2 st ptr n b).segFreeList
        (getFreeListIndex (b - n - 8)) = ptr + n + 8 := by
      show segRead (splitAdd st ptr n b).segFreeList (getFreeListIndex (b - n - 8)) = _
      unfold splitAdd
      rw [addFreeBlock_seg_eq, segRead_setSeg, if_pos rfl]
    by_cases hix : index = getFreeListIndex (b - n - 8)
    · have hne : segRead (splitSt2 st ptr n b).segFreeList index ≠ ptr := by
        rw [hix, hsegS2]
        omega
      rw [removeFreeBlock_seg_eq_of_ne _ _ _ hne]
      exact hsegS2
    · rw [removeFreeBlock_seg_ne _ _ _ _ (fun he => hix he.symm)]
      exact hsegS2

lemma placeBlock_nosplit (st : Heap) (ptr index n b : Nat)
    (hbytes : memBytes st.mem)
    (hptr : 16 ≤ ptr)
    (hb : getBlockSize st.mem (ptr - 8) = b)
    (hn24 : 24 ≤ n) (hn16 : n % 16 = 8)
    (hns : b - n < 32) (hfit : n ≤ b)
    (hbound : ptr + b + 16 < 2 ^ 64)
    (hnp : getNextFreeBlock st.mem ptr = 0 ∨
      disj8 (getNextFreeBlock st.mem ptr + 8) (ptr - 8))
    (hpv : getPrevFreeBlock st.mem ptr = 0 ∨
      disj8 (getPrevFreeBlock st.mem ptr) (ptr - 8)) :
    getBlockSize (placeBlock st ptr index n).mem (ptr - 8) = b := by
  have hp64 : (2 : Nat) ^ 64 = 18446744073709551616 := by norm_num
  have hn8 : n % 8 = 0 := by omega
  have hwb : load64 st.mem (ptr - 8) / 8 * 8 = b := by
    rw [← hb]
    unfold getBlockSize
    rfl
  have hw : load64 st.mem (ptr - 8) < 2 ^ 64 := load64_lt _ _ hbytes
  have hbound' : ptr + b + 16 < 18446744073709551616 := by omega
  have hw' : load64 st.mem (ptr - 8) < 18446744073709551616 := by omega
  have hpv' : disj8 (getPrevFreeBlock st.mem ptr) (ptr - 8) := by
    rcases hpv with h | h
    · rw [h]
      unfold disj8
      omega
    · exact h
  have e1 : getNextHeader (ptr - 8) b = ptr + b := by
    unfold getNextHeader get8ByteAlignment HEADER_SIZE
    have hb8 : b % 8 = 0 := by omega
    omega
  simp only [placeBlock]
  norm_num [get8ByteAlignment, HEADER_SIZE]
  rw [hb, if_neg (by omega : ¬ 32 ≤ b - n), e1]
  by_cases hL : ptr - 8 = st.lastHeader
  · rw [if_pos hL]
    have hnp_rt : getNextFreeBlock (setAlloc st.mem (ptr - 8)) ptr =
        getNextFreeBlock st.mem ptr := by
      show load64 (setAlloc st.mem (ptr - 8)) ptr = _
      unfold setAlloc
      rw [load64_store64_disj _ _ _ _ (by unfold disj8; omega)]
      rfl
    have hpv_rt : getPrevFreeBlock (setAlloc st.mem (ptr - 8)) ptr =
        getPrevFreeBlock st.mem ptr := by
      show load64 (setAlloc st.mem (ptr - 8)) (ptr + 8 * get8ByteAlignment FREE_OFFSET) = _
      unfold setAlloc
      rw [load64_store64_disj _ _ _ _ (by unfold disj8 get8ByteAlignment FREE_OFFSET; omega)]
      rfl
    have hrem := removeFreeBlock_mem_load { st with mem := setAlloc st.mem (ptr - 8) }
      ptr index (ptr - 8)
      (by rw [show getNextFreeBlock ({ st with mem := setAlloc st.mem (ptr - 8) } :
          Heap).mem ptr = getNextFreeBlock st.mem ptr from hnp_rt]; exact hnp)
      (by rw [show getPrevFreeBlock ({ st with mem := setAlloc st.mem (ptr - 8) } :
          Heap).mem ptr = getPrevFreeBlock st.mem ptr from hpv_rt]; exact hpv')
    unfold getBlockSize
    rw [hrem]
    show load64 (setAlloc st.mem (ptr - 8)) (ptr - 8) / 8 * 8 = b
    unfold setAlloc
    rw [load64_store64_same, hp64, Nat.mod_eq_of_lt (by omega)]
    omega
  · rw [if_neg hL]
    have hprev_h : load64 (setPrevAlloc st.mem (ptr + b)) (ptr - 8) =
        load64 st.mem (ptr - 8) := by
      unfold setPrevAlloc
      rw [load64_store64_disj _ _ _ _ (by unfold disj8; omega)]
    have hnp_rt : getNextFreeBlock (setAlloc (setPrevAlloc st.mem (ptr + b)) (ptr - 8)) ptr =
        getNextFreeBlock st.mem ptr := by
      show load64 (setAlloc (setPrevAlloc st.mem (ptr + b)) (ptr - 8)) ptr = _
      unfold setAlloc setPrevAlloc
      rw [load64_store64_disj _ _ _ _ (by unfold disj8; omega),
        load64_store64_disj _ _ _ _ (by unfold disj8; omega)]
      rfl
    have hpv_rt : getPrevFreeBlock (setAlloc (setPrevAlloc st.mem (ptr + b)) (ptr - 8)) ptr =
        getPrevFreeBlock st.mem ptr := by
      show load64 (setAlloc (setPrevAlloc st.mem (ptr + b)) (ptr - 8))
        (ptr + 8 * get8ByteAlignment FREE_OFFSET) = _
      unfold setAlloc setPrevAlloc
      rw [load64_store64_disj _ _ _ _ (by unfold disj8 get8ByteAlignment FREE_OFFSET; omega),
        load64_store64_disj _ _ _ _ (by unfold disj8 get8ByteAlignment FREE_OFFSET; omega)]
      rfl
    have hrem := removeFreeBlock_mem_load
      { st with mem := setAlloc (setPrevAlloc st.mem (ptr + b)) (ptr - 8) } ptr index (ptr - 8)
      (by rw [show getNextFreeBlock ({ st with
          mem := setAlloc (setPrevAlloc st.mem (ptr + b)) (ptr - 8) } : Heap).mem ptr =
          getNextFreeBlock st.mem ptr from hnp_rt]; exact hnp)
      (by rw [show getPrevFreeBlock ({ st with
          mem := setAlloc (setPrevAlloc st.mem (ptr + b)) (ptr - 8) } : Heap).mem ptr =
          getPrevFreeBlock st.mem ptr from hpv_rt]; exact hpv')
    unfold getBlockSize
    rw [hrem]
    show load64 (setAlloc (setPrevAlloc st.mem (ptr + b)) (ptr - 8)) (ptr - 8) / 8 * 8 = b
    unfold setAlloc
    rw [load64_store64_same, hprev_h, hp64, Nat.mod_eq_of_lt (by omega)]
    omega

/-- Claim C3: for a free victim block of payload size `b` chosen by `malloc`
(`placeBlock` is the placement step run on the victim found by the first-fit
search) for a normalized request `n`: the block is split iff `b - n ≥ 32`;
when split, the right half becomes a free block at `ptr + n` of payload size
`b - n - 8` with a matching footer at `ptr - 8 + b`, its previous-allocated
bit set to 1, and it is inserted at the head of the bin for its size (and
the victim's header is shrunk to `n`); when `b - n < 32`, the victim's size
stays `b` — in particular a minimum block (`b = 24`) is never split, since
`n ≥ 24`.  The disjointness hypotheses say that the (at most three) other
free-list nodes whose link fields the placement touches do not overlap the
victim block's words, which holds on every well-formed heap. -/
theorem malloc_split_policy (st : Heap) (ptr index n b : Nat)
    (hbytes : memBytes st.mem)
    (hptr : 16 ≤ ptr)
    (hb : getBlockSize st.mem (ptr - 8) = b)
    (hn24 : 24 ≤ n) (hn16 : n % 16 = 8)
    (hfit : n ≤ b)
    (hbound : ptr + b + 16 < 2 ^ 64)
    (hoh : segRead st.segFreeList (getFreeListIndex (b - n - 8)) = 0 ∨
      segRead st.segFreeList (getFreeListIndex (b - n - 8)) = ptr ∨
      (disj8 (segRead st.segFreeList (getFreeListIndex (b - n - 8)) + 8) (ptr - 8) ∧
       disj8 (segRead st.segFreeList (getFreeListIndex (b - n - 8)) + 8) (ptr + n) ∧
       disj8 (segRead st.segFreeList (getFreeListIndex (b - n - 8)) + 8) (ptr - 8 + b) ∧
       disj8 (segRead st.segFreeList (getFreeListIndex (b - n - 8)) + 8) ptr ∧
       disj8 (segRead st.segFreeList (getFreeListIndex (b - n - 8)) + 8) (ptr + 8)))
    (hnp : getNextFreeBlock st.mem ptr = 0 ∨
      (disj8 (getNextFreeBlock st.mem ptr + 8) (ptr - 8) ∧
       disj8 (getNextFreeBlock st.mem ptr + 8) (ptr + n) ∧
       disj8 (getNextFreeBlock st.mem ptr + 8) (ptr - 8 + b)))
    (hpv : getPrevFreeBlock st.mem ptr = 0 ∨
      (disj8 (getPrevFreeBlock st.mem ptr) (ptr - 8) ∧
       disj8 (getPrevFreeBlock st.mem ptr) (ptr + n) ∧
       disj8 (getPrevFreeBlock st.mem ptr) (ptr - 8 + b))) :
    (32 ≤ b - n →
      getBlockSize (placeBlock st ptr index n).mem (ptr - 8) = n ∧
      isFree (placeBlock st ptr index n).mem (ptr + n) = true ∧
      isPrevFree (placeBlock st ptr index n).mem (ptr + n) = false ∧
      getBlockSize (placeBlock st ptr index n).mem (ptr + n) = b - n - 8 ∧
      getBlockSize (placeBlock st ptr index n).mem (getFooter (ptr + n) (b - n - 8)) =
        b - n - 8 ∧
      segRead (placeBlock st ptr index n).segFreeList (getFreeListIndex (b - n - 8)) =
        getPayload (ptr + n)) ∧
    (b - n < 32 → getBlockSize (placeBlock st ptr index n).mem (ptr - 8) = b) ∧
    (b = 24 → getBlockSize (placeBlock st ptr index n).mem (ptr - 8) = 24) := by
  have hnp' : getNextFreeBlock st.mem ptr = 0 ∨
      disj8 (getNextFreeBlock st.mem ptr + 8) (ptr - 8) := by
    rcases hnp with h | h
    · exact Or.inl h
    · exact Or.inr h.1
  have hpv' : getPrevFreeBlock st.mem ptr = 0 ∨
      disj8 (getPrevFreeBlock st.mem ptr) (ptr - 8) := by
    rcases hpv with h | h
    · exact Or.inl h
    · exact Or.inr h.1
  refine ⟨?_, ?_, ?_⟩
  · intro hsp
    have hn8 : n % 8 = 0 := by omega
    have hb8 : b % 8 = 0 := by
      rw [← hb]
      unfold getBlockSize
      omega
    have e2 : getFooter (ptr + n) (b - n - 8) = ptr - 8 + b := by
      unfold getFooter get8ByteAlignment HEADER_SIZE FOOTER_SIZE
      omega
    have e3 : getPayload (ptr + n) = ptr + n + 8 := by
      unfold getPayload get8ByteAlignment HEADER_SIZE
      omega
    rw [e2, e3]
    exact placeBlock_split st ptr index n b hbytes hptr hb hn24 hn16 hsp hfit hbound
      hoh hnp hpv
  · intro hns
    exact placeBlock_nosplit st ptr index n b hbytes hptr hb hn24 hn16 hns hfit hbound
      hnp' hpv'
  · intro hb24
    have hns : b - n < 32 := by omega
    have hres := placeBlock_nosplit st ptr index n b hbytes hptr hb hn24 hn16 hns hfit
      hbound hnp' hpv'
    rw [hres, hb24]

/-- A handcrafted heap for the C3 witness: one free block of payload size 72
at header 65544 (word 74: size 72, free, previous allocated), which is the
head of its bin (index 3). -/
def stSplitW : Heap :=
  { mem := store64 Mem.base 65544 74, heapSize := 88, heapLimit := 200,
    segFreeList := [(3, 65552)], lastHeader := 65544 }

/-- Witness for C3: placing a request of n = 24 in the free 72-byte victim at
payload 65552 splits it: the victim header is shrunk to 24 and the right
half becomes a free block of size 40 in bin 1. -/
theorem malloc_split_policy_witness :
    32 ≤ 72 - 24 ∧
    getBlockSize (placeBlock stSplitW 65552 3 24).mem (65552 - 8) = 24 ∧
    getBlockSize (placeBlock stSplitW 65552 3 24).mem (65552 + 24) = 72 - 24 - 8 ∧
    segRead (placeBlock stSplitW 65552 3 24).segFreeList (getFreeListIndex (72 - 24 - 8)) =
      getPayload (65552 + 24) := by
  have hbytes : memBytes stSplitW.mem :=
    memBytes_store64 Mem.base 65544 74 memBytes_base
  have h := malloc_split_policy stSplitW 65552 3 24 72 hbytes (by decide) (by decide)
    (by decide) (by decide) (by decide) (by decide) (Or.inl (by decide))
    (Or.inl (by decide)) (Or.inl (by decide))
  have hs := h.1 (by decide)
  exact ⟨by decide, hs.1, hs.2.2.2.1, hs.2.2.2.2.2⟩

/-- Claim C10: with the `DEBUG` macro undefined (the shipped configuration)
the diagnostic check `mm_checkheap` returns `true` on every heap state and
every call-site tag, reading nothing. -/
theorem mm_checkheap_always_true (st : Heap) (lineno : Nat) :
    mm_checkheap st lineno = true := rfl

lemma in_heap_false_of_outside (st : Heap) (p : Nat)
    (h : p < heapLo ∨ mm_heap_hi st < p) : in_heap st p = false := by
  simp only [in_heap, Bool.and_eq_false_iff, decide_eq_false_iff_not, not_le]
  omega

/-- Claim C8: `free` on a pointer outside the heap bounds (below the low
address — in particular the null pointer 0 — or above the high address) is a
no-op: the whole state, hence the heap bytes, all 15 free-list heads and the
last-block pointer, is unchanged. -/
theorem free_outside_heap_noop (st : Heap) (p : Nat)
    (h : p < heapLo ∨ mm_heap_hi st < p) : free st p = st := by
  unfold free
  rw [in_heap_false_of_outside st p h]
  rfl

/-- Witness for C8: freeing the null pointer on a live heap is a no-op. -/
theorem free_outside_heap_noop_witness :
    (0 < heapLo ∨ mm_heap_hi mmInit1M < 0) ∧ free mmInit1M 0 = mmInit1M :=
  ⟨Or.inl (by decide), free_outside_heap_noop mmInit1M 0 (Or.inl (by decide))⟩

/-- Claim C9: whenever `calloc nmemb size` returns a non-null pointer, the
`size * nmemb` bytes behind it (the `size_t` product, which wraps at `2 ^ 64`
unguarded, exactly as the claim notes) are all zero, and the block was
obtained by a plain `malloc` of that product. -/
theorem calloc_zeroes (st : Heap) (nmemb size : Nat)
    (h : (calloc st nmemb size).1 ≠ 0) :
    (calloc st nmemb size).1 = (malloc st (size * nmemb % 2 ^ 64)).1 ∧
    ∀ i, i < size * nmemb % 2 ^ 64 →
      readB (calloc st nmemb size).2.mem ((calloc st nmemb size).1 + i) = 0 := by
  by_cases hm : (malloc st (size * nmemb % 2 ^ 64)).1 = 0
  · have hc : (calloc st nmemb size).1 = 0 := by
      simp only [calloc]
      rw [if_neg (not_not_intro hm)]
      exact hm
    exact absurd hc h
  · have hc : calloc st nmemb size =
        ((malloc st (size * nmemb % 2 ^ 64)).1,
          { (malloc st (size * nmemb % 2 ^ 64)).2 with
              mem := mm_memset (malloc st (size * nmemb % 2 ^ 64)).2.mem
                (malloc st (size * nmemb % 2 ^ 64)).1 0
                (size * nmemb % 2 ^ 64) }) := by
      simp only [calloc]
      rw [if_pos hm]
    refine ⟨by rw [hc], ?_⟩
    intro i hi
    rw [hc]
    simp only [mm_memset, readB]
    rw [if_pos (by omega)]

/-- Witness for C9: a concrete successful `calloc 1 8` on a fresh heap
returns non-null and its first byte is zero. -/
theorem calloc_zeroes_witness :
    (calloc mmInit1M 1 8).1 ≠ 0 ∧
    readB (calloc mmInit1M 1 8).2.mem ((calloc mmInit1M 1 8).1 + 0) = 0 :=
  ⟨by decide, (calloc_zeroes mmInit1M 1 8 (by decide)).2 0 (by decide)⟩

/-- Claim C7, counterexample: at the `size_t` request `s = 2 ^ 64 - 1` the
normalization in the code wraps around and produces 8, which is neither the
claimed value `max 24 (24 + 16 * ⌈(s - 24) / 16⌉)` nor a payload size ≥ s. -/
theorem newAlign_overflow_cex :
    newAlign (2 ^ 64 - 1) = 8 ∧ ¬ (2 ^ 64 - 1 ≤ newAlign (2 ^ 64 - 1)) := by
  decide

/-- Claim C7 (amended: for requests `0 < s ≤ 2 ^ 64 - 8`; beyond that the
`size_t` computation wraps, see `newAlign_overflow_cex`): `allocate`
normalizes `s` with `newAlign`, which equals
`max 24 (24 + 16 * ⌈(s - 24) / 16⌉)` and is the smallest valid payload size
(an element of 24 + 16k) that is ≥ s. -/
theorem newAlign_normalizes (s : Nat) (h1 : 0 < s) (h2 : s ≤ 2 ^ 64 - 8) :
    newAlign s = max 24 (24 + 16 * ((s - 24 + 15) / 16)) ∧
    (∃ k, newAlign s = 24 + 16 * k) ∧
    s ≤ newAlign s ∧
    ∀ m, (∃ k, m = 24 + 16 * k) → s ≤ m → newAlign s ≤ m := by
  have h64 : (2 : Nat) ^ 64 = 18446744073709551616 := by norm_num
  rw [h64] at h2
  unfold newAlign align ALIGNMENT BASE_ALIGNMENT
  rw [h64]
  by_cases hs : s ≤ 24
  · rw [if_pos hs]
    refine ⟨by omega, ⟨0, by omega⟩, by omega, ?_⟩
    rintro m ⟨k, rfl⟩ hm
    omega
  · rw [if_neg hs]
    have hlt : s - 24 + 16 - 1 < 18446744073709551616 := by omega
    rw [Nat.mod_eq_of_lt hlt]
    have hdiv : (s - 24 + 16 - 1) / 16 ≤ 1152921504606846974 := by omega
    have hres : 16 * ((s - 24 + 16 - 1) / 16) + 24 < 18446744073709551616 := by
      omega
    rw [Nat.mod_eq_of_lt hres]
    refine ⟨by omega, ⟨(s - 24 + 16 - 1) / 16, by omega⟩, by omega, ?_⟩
    rintro m ⟨k, rfl⟩ hm
    omega

/-- Witness for C7 (amended): at `s = 100` the normalized size is
`max 24 (24 + 16 * ⌈76 / 16⌉) = 104`. -/
theorem newAlign_normalizes_witness :
    0 < 100 ∧ newAlign 100 = max 24 (24 + 16 * ((100 - 24 + 15) / 16)) :=
  ⟨by decide, (newAlign_normalizes 100 (by decide) (by decide)).1⟩

/-- Claim C1 (code bug): on a heap whose extender cannot grow (`mm_sbrk` for
the needed 32 bytes returns the failure sentinel), `allocate 1` does not
return the null sentinel: `extendHeap` returns null but `malloc` returns
`getPayload NULL = 8` to the caller. -/
theorem malloc_oom_returns_nonnull :
    (mm_sbrk stTiny 32).1 = 2 ^ 64 - 1 ∧
    (malloc stTiny 1).1 = 8 ∧ (malloc stTiny 1).1 ≠ 0 := by decide

/-- Claim C6 (code bug): the value `allocate` hands to the caller when the
extender fails is 8 — non-null and not 16-byte aligned (by the allocator's
own `aligned` predicate). -/
theorem malloc_oom_misaligned :
    (malloc stTiny 1).1 ≠ 0 ∧ aligned (malloc stTiny 1).1 = false ∧
    (malloc stTiny 1).1 % 16 ≠ 0 := by decide

/-- Claim C2 (code bug): `reallocate p 200` when the internal allocation
fails (the extender refuses the needed 208 bytes) does not return null and
does not keep `p`'s block allocated: since the failed `malloc` returns the
bogus non-null pointer 8, `realloc`'s null check does not fire, 8 is
returned, and `p`'s block is freed. -/
theorem realloc_oom_not_null_frees_old :
    c2P.1 = 65552 ∧
    (mm_sbrk c2P.2 208).1 = 2 ^ 64 - 1 ∧
    (realloc c2P.2 65552 200).1 = 8 ∧
    isFree (realloc c2P.2 65552 200).2.mem 65544 = true := by decide

/-- Claim C4 (code bug): zero-allocate on a heap satisfying all invariants
(one allocated 24-byte block) with an exhausted extender: the failed inner
`malloc` yields the bogus pointer 8 and `calloc`'s zero-fill through it
wipes the heap, leaving adjacent free blocks — the invariant is violated
after a public operation. -/
theorem calloc_oom_corrupts_heap :
    isFree c4A.2.mem 65544 = false ∧ getBlockSize c4A.2.mem 65544 = 24 ∧
    c4Z.1 = 8 ∧
    isFree c4Z.2.mem 65544 = true ∧ getBlockSize c4Z.2.mem 65544 = 0 ∧
    getNextHeader 65544 (getBlockSize c4Z.2.mem 65544) = 65552 ∧
    isFree c4Z.2.mem 65552 = true ∧
    65552 + 8 - 1 ≤ mm_heap_hi c4Z.2 := by decide

/-- Claim C5: on a fresh heap, after `a = allocate 40`, `b = allocate 40`,
`c = allocate 40`, `free a`, `free b`, the blocks of `a` and `b` are merged
into a single free block of payload size 40 + 40 + 8 = 88 (header and footer
agree), and the header of `c`'s block — the right neighbour at 65640 — has
its previous-allocated bit 0 while staying allocated itself.  The merged
block heads the bin for size 88. -/
theorem forward_coalescing_scenario :
    c5A.1 = 65552 ∧ c5B.1 = 65600 ∧ c5C.1 = 65648 ∧
    isFree c5FreeB.mem 65544 = true ∧
    getBlockSize c5FreeB.mem 65544 = 88 ∧
    getBlockSize c5FreeB.mem (getFooter 65544 88) = 88 ∧
    getNextHeader 65544 88 = 65640 ∧
    isFree c5FreeB.mem 65640 = false ∧
    isPrevFree c5FreeB.mem 65640 = true ∧
    segRead c5FreeB.segFreeList (getFreeListIndex 88) = 65552 := by decide

end MM
